import Mathlib

/-
Verification development for the nscheck DNS / email-authentication checker.

The definitions below are a shallow embedding of `src/services/dns.ts`
(the later of the two revisions concatenated in that file, which is the one
the line references of the analysed claims point into).  JavaScript objects
keyed by strings are embedded as association lists (JS objects cannot hold
duplicate keys; lookup is first-match), JS arrays as `List`, and values of
the heterogeneous provider-result objects as a small sum type `JVal`
(string-array entries vs. the string-valued `authoritativeServer` metadata
field).  `JSON.stringify` applied to an array of strings is injective, so
the consistency analyser's serialized-value comparison is embedded as direct
comparison of the (canonicalized) string lists themselves.  The live
network probe of `www.<domain>` performed inside `validateResults` is
embedded as an explicit function argument `probe : Nat → List String`
giving, for index `i`, the CNAME answers obtained for
`k<i+1>._domainkey.www.<domain>`.  Time (`Date.now()`) is an explicit
`Nat` millisecond argument to the throttler.
-/

/-! ## String utilities with JavaScript semantics -/

/-- Boolean "is prefix" on character lists (used to embed JS string search). -/
def isPrefB : List Char → List Char → Bool
  | [], _ => true
  | _ :: _, [] => false
  | a :: as, b :: bs => a == b && isPrefB as bs

/-- Boolean "occurs as a contiguous substring" on character lists. -/
def isInfB (pat : List Char) : List Char → Bool
  | [] => isPrefB pat []
  | c :: rest => isPrefB pat (c :: rest) || isInfB pat rest

/-- JS `s.includes(pat)`. -/
def strContains (s pat : String) : Bool := isInfB pat.data s.data

/-- JS `s.startsWith(pat)`. -/
def jsStartsWith (s pat : String) : Bool := isPrefB pat.data s.data

/-- JS `s.substring(n)`: drop the first `n` characters. -/
def strDrop (s : String) (n : Nat) : String := ⟨s.data.drop n⟩

/-- Lower-case every character (ASCII case folding, which covers all inputs
the DMARC regular expression is applied to). -/
def lowerStr (s : String) : String := ⟨s.data.map Char.toLower⟩

/-- Case-insensitive substring test, embedding a `/.../i` regex search for a
literal pattern. -/
def containsCI (s pat : String) : Bool := strContains (lowerStr s) (lowerStr pat)

/-- Replace the first occurrence of `pat` by `rep`, on character lists.
JS `String.prototype.replace` with a string search argument replaces only
the first occurrence (or nothing when the pattern does not occur). -/
def replFirstL (pat rep : List Char) : List Char → List Char
  | [] => if isPrefB pat [] then rep else []
  | c :: rest =>
    if isPrefB pat (c :: rest) then rep ++ (c :: rest).drop pat.length
    else c :: replFirstL pat rep rest

/-- JS `s.replace(pat, rep)` (first occurrence only). -/
def jsReplace (s pat rep : String) : String := ⟨replFirstL pat.data rep.data s.data⟩

/-- Split a character list at every occurrence of `sep`, JS
`String.prototype.split` semantics (so `"."` splits into two empty parts). -/
def splitOnCh (sep : Char) : List Char → List (List Char)
  | [] => [[]]
  | c :: rest =>
    if c == sep then [] :: splitOnCh sep rest
    else
      match splitOnCh sep rest with
      | [] => [[c]]
      | h :: t => (c :: h) :: t

/-- JS `s.split(sep)` for a single-character separator. -/
def jsSplit (s : String) (sep : Char) : List String :=
  (splitOnCh sep s.data).map (fun l => ⟨l⟩)

/-- JS `s.trim()`. -/
def trimStr (s : String) : String :=
  ⟨((s.data.dropWhile Char.isWhitespace).reverse.dropWhile Char.isWhitespace).reverse⟩

/-- Strict lexicographic comparison of character lists by code point; this is
what the default JS `Array.prototype.sort()` comparator computes on the
ASCII strings handled here. -/
def ltCharList : List Char → List Char → Bool
  | [], [] => false
  | [], _ :: _ => true
  | _ :: _, [] => false
  | a :: as, b :: bs => if a < b then true else if b < a then false else ltCharList as bs

/-- JS default string comparison `a < b`. -/
def jsLtStr (a b : String) : Bool := ltCharList a.data b.data

/-- Stable insertion of a string into an ascending list. -/
def insertSorted (x : String) : List String → List String
  | [] => [x]
  | y :: ys => if jsLtStr y x then y :: insertSorted x ys else x :: y :: ys

/-- Stable ascending sort, embedding JS `array.sort()` on string arrays. -/
def sortStr (l : List String) : List String := l.foldr insertSorted []

/-- Deduplicate keeping the first occurrence of each element; this is the
iteration order of `Array.from(new Set(xs))` / `[...new Set(xs)]` in JS. -/
def dedupKeepFirst {α : Type} [BEq α] (l : List α) : List α :=
  l.foldl (fun acc x => if acc.contains x then acc else acc ++ [x]) []

/-! ## Data model -/

/-- The closed set of `ValidationError.type` tags used by the validators. -/
inductive ErrType where
  | switchedRecords
  | incorrectDestination
  | missingRecords
  | invalidRecords
  | wrongSubdomain
  | duplicateDomain
  | missingRecord
  | multipleRecords
  | invalidSyntax
  deriving DecidableEq, Repr

/-- A `ValidationError`: tagged variant with optional actual/expected
record-name strings. -/
structure VError where
  type : ErrType
  message : String
  actual : Option String := none
  expected : Option String := none
  deriving DecidableEq, Repr

/-- A per-area `ValidationResult` / `DkimValidationResult` /
`DmarcValidationResult`: all share the shape `{isValid, errors}`. -/
structure VResult where
  isValid : Bool
  errors : List VError
  deriving DecidableEq, Repr

/-- A value stored in a provider's result object: either a string array
(record values) or a bare string (the `authoritativeServer` metadata). -/
inductive JVal where
  | arr : List String → JVal
  | str : String → JVal
  deriving DecidableEq, Repr

/-- One provider's result object: record name to value. -/
abbrev ProviderRecords := List (String × JVal)

/-- A `DnsResult` bundle: provider name to that provider's result object. -/
abbrev Bundle := List (String × ProviderRecords)

/-- The consolidated record map `Record<string, string[]>`. -/
abbrev RecordMap := List (String × List String)

/-- `ConsistencyResult`. -/
structure ConsistencyResult where
  consistent : Bool
  hasSuccessfulResults : Bool
  deriving DecidableEq, Repr

/-- `ValidationSummary`. -/
structure ValidationSummary where
  isValid : Bool
  dkim : VResult
  dmarc : VResult
  consistency : ConsistencyResult
  deriving DecidableEq, Repr

/-- Object-key lookup in a provider result (JS `providerResults[name]`,
`none` when the key is absent). -/
def lookupJ (m : ProviderRecords) (k : String) : Option JVal :=
  (m.find? (fun e => e.1 == k)).map (fun e => e.2)

/-- Lookup with empty-list default (JS `records[key] || []`). -/
def lookupD (m : RecordMap) (k : String) : List String :=
  ((m.find? (fun e => e.1 == k)).map (fun e => e.2)).getD []

/-- The metadata-only field names excluded from record iteration. -/
def metaName (n : String) : Bool :=
  n == "authoritativeServer" || n == "authoritativeServers"

/-! ## DkimValidator -/

/-- The three provider-issued CNAME targets recognised as DKIM records. -/
def knownDkimCname (v : String) : Bool :=
  v == "dkim.mcsv.net" || v == "dkim2.mcsv.net" || v == "dkim3.mcsv.net"

/-- Embedding of `DkimValidator.validate` (dns.ts lines 735-788): checks
`k2`/`k3._domainkey.<domain>` for the exact targets, detects switched and
incorrect destinations, falls back to `k1._domainkey.<domain>`. -/
def DkimValidator.validate (domain : String) (records : RecordMap) : VResult :=
  let k2Records := lookupD records ("k2._domainkey." ++ domain)
  let k3Records := lookupD records ("k3._domainkey." ++ domain)
  if !k2Records.isEmpty && !k3Records.isEmpty then
    let k2Valid := k2Records.any (fun r => r == "dkim2.mcsv.net")
    let k3Valid := k3Records.any (fun r => r == "dkim3.mcsv.net")
    if k2Valid && k3Valid then
      { isValid := true, errors := [] }
    else if k2Records.any (fun r => r == "dkim3.mcsv.net") &&
            k3Records.any (fun r => r == "dkim2.mcsv.net") then
      { isValid := false,
        errors := [{ type := .switchedRecords,
                     message := "DKIM records appear to be switched - k2 points to dkim3 and k3 points to dkim2" }] }
    else
      { isValid := false,
        errors := [{ type := .incorrectDestination,
                     message := "DKIM records found but point to incorrect destinations" }] }
  else
    let k1Records := lookupD records ("k1._domainkey." ++ domain)
    if !k1Records.isEmpty && k1Records.any (fun r => r == "dkim.mcsv.net") then
      { isValid := true, errors := [] }
    else if k2Records.isEmpty && k3Records.isEmpty && k1Records.isEmpty then
      { isValid := false,
        errors := [{ type := .missingRecords, message := "No DKIM records found" }] }
    else
      { isValid := false,
        errors := [{ type := .invalidRecords,
                     message := "DKIM records found but are not configured correctly" }] }

/-- Embedding of `DkimValidator.checkCommonErrors` (dns.ts lines 793-876):
wrong-subdomain detection (keys containing `_domainkey.www.`, or any
`_domainkey.` key when the checked domain itself starts with `www.`,
restricted to values that are actual DKIM CNAMEs) and duplicate-domain
detection (keys containing `_domainkey.<domain>.<domain>`).  In the source
the flag `foundDkimRecords` is set exactly when at least one wrong-subdomain
error is pushed, so `isValid` is true iff neither error list is non-empty. -/
def DkimValidator.checkCommonErrors (domain : String) (records : RecordMap) : VResult :=
  let keys := records.map (fun e => e.1)
  let wwwKeys := keys.filter (fun k =>
    strContains k "_domainkey.www." ||
    (strContains k "_domainkey." && jsStartsWith domain "www."))
  let wwwErrs := wwwKeys.filterMap (fun record =>
    if (lookupD records record).any knownDkimCname then
      if jsStartsWith domain "www." then
        some { type := .wrongSubdomain,
               message := "DKIM record published for incorrect subdomain",
               actual := some record,
               expected := some (jsReplace record ("_domainkey." ++ domain)
                                   ("_domainkey." ++ strDrop domain 4)) }
      else
        some { type := .wrongSubdomain,
               message := "DKIM record published for incorrect subdomain",
               actual := some record,
               expected := some (jsReplace record ("www." ++ domain) domain) }
    else none)
  let dupKeys := keys.filter (fun k =>
    strContains k ("_domainkey." ++ domain ++ "." ++ domain))
  let dupErrs := dupKeys.map (fun record =>
    { type := .duplicateDomain,
      message := "DKIM record contains duplicate domain",
      actual := some record,
      expected := some (jsReplace record (domain ++ "." ++ domain) domain) : VError })
  { isValid := wwwErrs.isEmpty && dupKeys.isEmpty, errors := wwwErrs ++ dupErrs }

/-! ## DmarcValidator -/

/-- Embedding of the regex test `dmarcRecord.match(/p=(reject|quarantine|none)/i)`:
a case-insensitive search anywhere in the string for `p=` immediately
followed by one of the three policy words. -/
def pPolicyMatch (s : String) : Bool :=
  containsCI s "p=reject" || containsCI s "p=quarantine" || containsCI s "p=none"

/-- Embedding of `DmarcValidator.validate` (dns.ts lines 886-927).  The
source tests `dmarcRecords.length === 0`, then `> 1`, and otherwise
validates `dmarcRecords[0]`; this is matched structurally on the filtered
list here. -/
def DmarcValidator.validate (records : List String) : VResult :=
  match records.filter (fun r => strContains r "v=DMARC1") with
  | [] =>
      { isValid := false,
        errors := [{ type := .missingRecord, message := "No DMARC record found" }] }
  | [dmarcRecord] =>
      if pPolicyMatch dmarcRecord then
        { isValid := true, errors := [] }
      else
        { isValid := false,
          errors := [{ type := .invalidSyntax,
                       message := "DMARC record missing required policy (p=) tag" }] }
  | _ :: _ :: _ =>
      { isValid := false,
        errors := [{ type := .multipleRecords, message := "Multiple DMARC records found" }] }

/-! ## ResultAnalyzer: consistency -/

/-- All record names seen across all providers, in first-seen order
(JS `Set` insertion order). -/
def recordNames (r : Bundle) : List String :=
  dedupKeepFirst (r.foldl (fun acc e => acc ++ e.2.map (fun kv => kv.1)) [])

/-- The canonical comparison form of one provider's value list for a record:
DMARC record lists are sorted before comparison, everything else is kept
as-is (dns.ts lines 984-991). -/
def canonVals (name : String) (vs : List String) : List String :=
  if strContains name "_dmarc" && !vs.isEmpty then sortStr vs else vs

/-- The per-provider canonical value lists collected for a record name:
a provider with a defined non-array value is skipped, a provider without
the key contributes `[]` (JS `providerResults[recordName] || []`).  The
source compares `JSON.stringify` images of these lists, and `JSON.stringify`
is injective on string arrays, so the lists themselves are compared here. -/
def providerVals (r : Bundle) (name : String) : List (List String) :=
  r.filterMap (fun e =>
    match lookupJ e.2 name with
    | some (JVal.str _) => none
    | some (JVal.arr vs) => some (canonVals name vs)
    | none => some (canonVals name []))

/-- Whether some provider returned a non-empty list for this record name. -/
def hasValidB (r : Bundle) (name : String) : Bool :=
  (providerVals r name).any (fun vs => !vs.isEmpty)

/-- Whether the providers disagree: more than one distinct canonical value
(the source's `uniqueValues.size > 1` over serialized lists). -/
def multiB (r : Bundle) (name : String) : Bool :=
  1 < (dedupKeepFirst (providerVals r name)).length

/-- Embedding of `ResultAnalyzer.checkConsistency` (dns.ts lines 955-1013).
The loop sets `hasSuccessfulResults` as soon as some non-metadata record
name has a non-empty provider result, and clears `consistent` as soon as
such a name also shows more than one distinct serialized value. -/
def ResultAnalyzer.checkConsistency (r : Bundle) : ConsistencyResult :=
  let names := (recordNames r).filter (fun n => !metaName n)
  { consistent := !(names.any (fun n => hasValidB r n && multiB r n)),
    hasSuccessfulResults := names.any (fun n => hasValidB r n) }

/-! ## ResultAnalyzer: orchestration -/

/-- Append values for a key to the consolidated map, creating the entry at
the end on first sight (JS object insertion order). -/
def addVals : RecordMap → String → List String → RecordMap
  | [], k, vs => [(k, vs)]
  | (k', vs') :: rest, k, vs =>
    if k' == k then (k', vs' ++ vs) :: rest else (k', vs') :: addVals rest k vs

/-- Consolidation of all providers' records into one map (dns.ts lines
1038-1058): concatenate array values per record name, skipping metadata
fields, then deduplicate each value list. -/
def consolidate (r : Bundle) : RecordMap :=
  let raw := r.foldl (fun acc e =>
    e.2.foldl (fun acc kv =>
      match kv.2 with
      | JVal.str _ => acc
      | JVal.arr vs => if metaName kv.1 then acc else addVals acc kv.1 vs) acc) []
  raw.map (fun e => (e.1, dedupKeepFirst e.2))

/-- The `hasNoRecords` probe guard (dns.ts lines 1028-1036): no provider
has a key containing `k1/k2/k3._domainkey.<domain>` with a non-empty array
value. -/
def hasNoRecordsB (domain : String) (r : Bundle) : Bool :=
  !(r.any (fun e => e.2.any (fun kv =>
    (strContains kv.1 ("k1._domainkey." ++ domain) ||
     strContains kv.1 ("k2._domainkey." ++ domain) ||
     strContains kv.1 ("k3._domainkey." ++ domain)) &&
    (match kv.2 with
     | JVal.arr vs => !vs.isEmpty
     | JVal.str _ => false))))

/-- The errors synthesized from the supplementary live probe of
`www.<domain>` (dns.ts lines 1071-1134): for each key `k1`/`k2`/`k3` whose
probe answers contain a known DKIM CNAME, one `wrongSubdomain` error; the
source's `recordKey.split('._domainkey.')[0]` is `k<i+1>` for these keys. -/
def wwwProbeErrors (domain : String) (probe : Nat → List String) : List VError :=
  [0, 1, 2].filterMap (fun i =>
    let validCnames := (probe i).filter knownDkimCname
    if validCnames.isEmpty then none
    else some { type := .wrongSubdomain,
                message := "DKIM record published for incorrect subdomain",
                actual := some ("k" ++ toString (i + 1) ++ "._domainkey.www." ++ domain),
                expected := some ("k" ++ toString (i + 1) ++ "._domainkey." ++ domain) })

/-- The DKIM portion of `validateResults` (dns.ts lines 1060-1134): run the
primary validator and `checkCommonErrors` on the consolidated map; when the
common-error pass found anything, prepend its errors to the primary error
list; when no DKIM records were found anywhere and the common-error pass
found nothing, fold in the live `www.` probe errors and force
`isValid = false` when the probe found records. -/
def ResultAnalyzer.dkimSection (domain : String) (results : Bundle)
    (probe : Nat → List String) : VResult :=
  let consolidated := consolidate results
  let primary := DkimValidator.validate domain consolidated
  let common := DkimValidator.checkCommonErrors domain consolidated
  let merged :=
    if common.errors.isEmpty then primary
    else { primary with errors := common.errors ++ primary.errors }
  if hasNoRecordsB domain results && common.errors.isEmpty then
    let probeErrs := wwwProbeErrors domain probe
    if probeErrs.isEmpty then merged
    else { isValid := false, errors := merged.errors ++ probeErrs }
  else merged

/-- Embedding of `ResultAnalyzer.validateResults` (dns.ts lines 1018-1153).
The consolidated `_dmarc.<domain>` values are sorted before DMARC
validation; consistency is checked on the raw per-provider bundle; the
overall verdict is the conjunction of the three component verdicts. -/
def ResultAnalyzer.validateResults (domain : String) (results : Bundle)
    (probe : Nat → List String) : ValidationSummary :=
  let dkimResult := ResultAnalyzer.dkimSection domain results probe
  let dmarcResult :=
    DmarcValidator.validate (sortStr (lookupD (consolidate results) ("_dmarc." ++ domain)))
  let consistencyResult := ResultAnalyzer.checkConsistency results
  { isValid := dkimResult.isValid && dmarcResult.isValid && consistencyResult.consistent,
    dkim := dkimResult,
    dmarc := dmarcResult,
    consistency := consistencyResult }

/-! ## RequestThrottler -/

/-- One entry of the per-IP counter table. -/
structure ThrottleEntry where
  count : Nat
  resetTime : Nat
  deriving DecidableEq, Repr

/-- The throttler's state: configuration plus the mutable counter table. -/
structure ThrottlerState where
  defaultLimit : Nat
  overrides : List (String × Nat)
  ipCounts : List (String × ThrottleEntry)
  deriving DecidableEq, Repr

/-- Lookup in the override table (JS `this.overrides[key]`). -/
def lookupOv (ovr : List (String × Nat)) (k : String) : Option Nat :=
  (ovr.find? (fun e => e.1 == k)).map (fun e => e.2)

/-- JS truthiness of `this.overrides[key]` for a numeric table: an absent
key and a present value `0` are both falsy. -/
def truthyOv (o : Option Nat) : Bool :=
  match o with
  | some n => n != 0
  | none => false

/-- A freshly constructed throttler (empty counter table). -/
def RequestThrottler.mk (defaultLimit : Nat) (overrides : List (String × Nat)) :
    ThrottlerState :=
  { defaultLimit := defaultLimit, overrides := overrides, ipCounts := [] }

/-- Embedding of `RequestThrottler.getLimitForIp` (dns.ts lines 1173-1193):
the exact-IP override when truthy, else the `a.b.c.*` wildcard override
when the IP splits into four dot-separated parts and that override is
truthy, else the default limit. -/
def RequestThrottler.getLimitForIp (t : ThrottlerState) (ip : String) : Nat :=
  if truthyOv (lookupOv t.overrides ip) then (lookupOv t.overrides ip).getD 0
  else
    let parts := jsSplit ip '.'
    if parts.length == 4 then
      let classC := parts.getD 0 "" ++ "." ++ parts.getD 1 "" ++ "." ++
                    parts.getD 2 "" ++ ".*"
      if truthyOv (lookupOv t.overrides classC) then (lookupOv t.overrides classC).getD 0
      else t.defaultLimit
    else t.defaultLimit

/-- Update-or-append in the counter table (JS `Map.prototype.set`). -/
def setEntry : List (String × ThrottleEntry) → String → ThrottleEntry →
    List (String × ThrottleEntry)
  | [], k, v => [(k, v)]
  | (k', v') :: rest, k, v =>
    if k' == k then (k, v) :: rest else (k', v') :: setEntry rest k v

/-- Embedding of `RequestThrottler.checkAllowed` (dns.ts lines 1198-1218)
with `Date.now()` passed explicitly: reset the entry when absent or when
its window expired, then allow and increment while under the limit. -/
def RequestThrottler.checkAllowed (t : ThrottlerState) (ip : String) (now : Nat) :
    Bool × ThrottlerState :=
  let hourInMs := 60 * 60 * 1000
  let limit := RequestThrottler.getLimitForIp t ip
  let tracking :=
    match (t.ipCounts.find? (fun e => e.1 == ip)).map (fun e => e.2) with
    | some e => if e.resetTime < now then { count := 0, resetTime := now + hourInMs } else e
    | none => { count := 0, resetTime := now + hourInMs }
  if tracking.count < limit then
    let bumped : ThrottleEntry := { count := tracking.count + 1, resetTime := tracking.resetTime }
    (true, { t with ipCounts := setEntry t.ipCounts ip bumped })
  else
    (false, { t with ipCounts := setEntry t.ipCounts ip tracking })

/-- Run a sequence of `checkAllowed` calls for one IP at the given times,
threading the throttler state, and collect the boolean outcomes. -/
def RequestThrottler.runCalls (t : ThrottlerState) (ip : String) :
    List Nat → List Bool
  | [] => []
  | now :: rest =>
    let step := RequestThrottler.checkAllowed t ip now
    step.1 :: RequestThrottler.runCalls step.2 ip rest

/-! ## Definitions taken from the specification's wording

These three definitions are deliberately formalized from the words of the
analysed claims (not from the source) so that the claims can be compared
with the behaviour of the embedded code. -/

/-- Formalized from the claim's words for the DMARC policy check: the record
has a `p=` tag - a semicolon-separated, whitespace-trimmed component - whose
value is exactly `reject`, `quarantine` or `none`, case-insensitively. -/
def hasPolicyTagSpec (s : String) : Bool :=
  (jsSplit s ';').any (fun tag =>
    let t := lowerStr (trimStr tag)
    t == "p=reject" || t == "p=quarantine" || t == "p=none")

/-- Formalized from the claim's words for consistency: some non-metadata
record name shows more than one distinct serialized value among the
providers that returned non-empty lists for that name. -/
def specInconsistent (r : Bundle) : Bool :=
  (recordNames r).any (fun n =>
    !metaName n &&
    1 < (dedupKeepFirst ((providerVals r n).filter (fun vs => !vs.isEmpty))).length)

/-- Formalized from the claim's words for the throttler limit: the override
for the exact IP if present, else the override for the `a.b.c.*` wildcard if
present, else the default limit (no truthiness filtering). -/
def specLimitForIp (defaultLimit : Nat) (ovr : List (String × Nat)) (ip : String) : Nat :=
  match lookupOv ovr ip with
  | some n => n
  | none =>
    let parts := jsSplit ip '.'
    match lookupOv ovr (parts.getD 0 "" ++ "." ++ parts.getD 1 "" ++ "." ++
                        parts.getD 2 "" ++ ".*") with
    | some n => n
    | none => defaultLimit

/-! ## Concrete inputs used by counterexamples and witnesses -/

/-- Bundle with correctly configured k2/k3 plus a duplicate-domain key. -/
def bundleC1 : Bundle :=
  [("google",
    [("k2._domainkey.example.com", JVal.arr ["dkim2.mcsv.net"]),
     ("k3._domainkey.example.com", JVal.arr ["dkim3.mcsv.net"]),
     ("k2._domainkey.example.com.example.com", JVal.arr ["dkim2.mcsv.net"])])]

/-- Record map with both k2 and k3 resolving to the correct targets. -/
def recordsC2 : RecordMap :=
  [("k2._domainkey.example.com", ["dkim2.mcsv.net"]),
   ("k3._domainkey.example.com", ["dkim3.mcsv.net"])]

/-- Bundle where one provider answers a record and another returns empty. -/
def bundleC4 : Bundle :=
  [("google", [("k2._domainkey.example.com", JVal.arr ["dkim2.mcsv.net"])]),
   ("cloudflare", [("k2._domainkey.example.com", JVal.arr [])])]

/-- Bundle for the C5 witness: three providers, one of them empty. -/
def bundleC5 : Bundle :=
  [("google", [("_dmarc.example.org", JVal.arr ["v=DMARC1; p=reject"])]),
   ("openDNS", [("_dmarc.example.org", JVal.arr [])])]

/-- Bundle with k2/k3 target values swapped, for a domain already at `www.`. -/
def bundleC6cex : Bundle :=
  [("google",
    [("k2._domainkey.www.example.com", JVal.arr ["dkim3.mcsv.net"]),
     ("k3._domainkey.www.example.com", JVal.arr ["dkim2.mcsv.net"])])]

/-- A single-provider bundle holding exactly the swapped k2/k3 records for
the given domain. -/
def swapBundle (domain : String) : Bundle :=
  [("google",
    [("k2._domainkey." ++ domain, JVal.arr ["dkim3.mcsv.net"]),
     ("k3._domainkey." ++ domain, JVal.arr ["dkim2.mcsv.net"])])]

/-- The consolidated record map arising from `swapBundle`. -/
def swapMap (domain : String) : RecordMap :=
  [("k2._domainkey." ++ domain, ["dkim3.mcsv.net"]),
   ("k3._domainkey." ++ domain, ["dkim2.mcsv.net"])]

/-- Bundle for C7's concrete checks: a typical mixed bundle. -/
def bundleC7 : Bundle :=
  [("google", [("_dmarc.example.net", JVal.arr ["v=DMARC1; p=none"])]),
   ("authoritative", [("_dmarc.example.net", JVal.arr []),
                      ("authoritativeServers", JVal.arr ["ns1.example.net"])])]

/-- Bundle with no DKIM records at all, so the live probe branch runs. -/
def bundleC8 : Bundle :=
  [("google", [("_dmarc.example.com", JVal.arr ["v=DMARC1; p=none"])])]

/-- A probe answering every DKIM key with a correct-looking CNAME. -/
def probeHit : Nat → List String := fun _ => ["dkim2.mcsv.net"]

/-- A probe answering nothing. -/
def probeMiss : Nat → List String := fun _ => []

/-! ## Helper lemmas -/

theorem isPrefB_self (l : List Char) : isPrefB l l = true := by
  induction l with
  | nil => rfl
  | cons a t ih => simp [isPrefB, ih]

theorem strContains_self (s : String) : strContains s s = true := by
  unfold strContains
  cases h : s.data with
  | nil => rfl
  | cons c rest => simp [isInfB, isPrefB_self]

theorem mem_dedupKeepFirst {α : Type} [BEq α] [LawfulBEq α] (x : α) (l : List α) :
    x ∈ dedupKeepFirst l ↔ x ∈ l := by
  have main : ∀ (l' acc : List α),
      (x ∈ l'.foldl (fun acc y => if acc.contains y then acc else acc ++ [y]) acc ↔
        x ∈ acc ∨ x ∈ l') := by
    intro l'
    induction l' with
    | nil => intro acc; simp
    | cons a t ih =>
      intro acc
      rw [List.foldl_cons, ih]
      by_cases hc : acc.contains a = true
      · have ha : a ∈ acc := by simpa using hc
        rw [if_pos hc]
        simp only [List.mem_cons]
        constructor
        · rintro (h | h)
          · exact Or.inl h
          · exact Or.inr (Or.inr h)
        · rintro (h | h | h)
          · exact Or.inl h
          · exact Or.inl (h ▸ ha)
          · exact Or.inr h
      · rw [if_neg hc]
        simp only [List.mem_append, List.mem_singleton, List.mem_cons]
        tauto
  have hmain := main l []
  simp only [List.not_mem_nil, false_or] at hmain
  exact hmain

theorem nodup_dedupKeepFirst {α : Type} [BEq α] [LawfulBEq α] (l : List α) :
    (dedupKeepFirst l).Nodup := by
  have main : ∀ (l' acc : List α), acc.Nodup →
      (l'.foldl (fun acc y => if acc.contains y then acc else acc ++ [y]) acc).Nodup := by
    intro l'
    induction l' with
    | nil => intro acc h; exact h
    | cons a t ih =>
      intro acc h
      rw [List.foldl_cons]
      by_cases hc : acc.contains a = true
      · rw [if_pos hc]; exact ih acc h
      · rw [if_neg hc]
        have ha : a ∉ acc := by simpa using hc
        refine ih _ ?_
        simp [List.nodup_append, h, ha]
  exact main l [] List.nodup_nil

theorem one_lt_length_of_two_mem {α : Type} {l : List α} {a b : α}
    (ha : a ∈ l) (hb : b ∈ l) (h : a ≠ b) : 1 < l.length := by
  match l, ha with
  | [x], ha => simp_all
  | x :: y :: t, _ => simp

theorem one_lt_dedup_length_iff {α : Type} [BEq α] [LawfulBEq α] (l : List α) :
    1 < (dedupKeepFirst l).length ↔ ∃ a ∈ l, ∃ b ∈ l, a ≠ b := by
  constructor
  · intro h
    rcases hd : dedupKeepFirst l with _ | ⟨x, _ | ⟨y, t⟩⟩ <;> rw [hd] at h
    · simp at h
    · simp at h
    · have hnd := nodup_dedupKeepFirst l
      rw [hd] at hnd
      have hxy : x ≠ y := by
        intro hxyeq
        exact (List.nodup_cons.mp hnd).1 (hxyeq ▸ List.mem_cons_self y t)
      have hx : x ∈ l := (mem_dedupKeepFirst x l).mp (hd ▸ List.mem_cons_self x (y :: t))
      have hy : y ∈ l :=
        (mem_dedupKeepFirst y l).mp (hd ▸ List.mem_cons_of_mem x (List.mem_cons_self y t))
      exact ⟨x, hx, y, hy, hxy⟩
  · rintro ⟨a, ha, b, hb, hne⟩
    exact one_lt_length_of_two_mem ((mem_dedupKeepFirst a l).mpr ha)
      ((mem_dedupKeepFirst b l).mpr hb) hne

/-! ## Claim theorems -/

/-- Claim C7 (confirmed): for every domain, bundle and probe outcome, the
overall `isValid` of the summary returned by `validateResults` is the
conjunction of the `dkim`, `dmarc` and `consistency` verdicts carried in
that same summary. -/
theorem validateResults_isValid_conj (domain : String) (results : Bundle)
    (probe : Nat → List String) :
    (ResultAnalyzer.validateResults domain results probe).isValid =
      ((ResultAnalyzer.validateResults domain results probe).dkim.isValid &&
       (ResultAnalyzer.validateResults domain results probe).dmarc.isValid &&
       (ResultAnalyzer.validateResults domain results probe).consistency.consistent) := rfl

/-- Claim C8, counterexample: with the live `www.` probe embedded as the
environment's answers, the same domain and the same bundle can produce two
different summaries on two runs when the two probe round trips answer
differently, so bit-identical determinism over the bundle alone fails. -/
theorem validateResults_probe_dependent_cex :
    ResultAnalyzer.validateResults "example.com" bundleC8 probeHit ≠
      ResultAnalyzer.validateResults "example.com" bundleC8 probeMiss := by decide

/-- Claim C8 (amended): `validateResults` is a pure function of the domain,
the bundle and the probe answers - two runs with identical inputs and
identical probe round-trip answers yield bit-identical summaries; there is
no other hidden state. -/
theorem validateResults_deterministic (domain : String) (results : Bundle)
    (p₁ p₂ : Nat → List String) (h : ∀ i, p₁ i = p₂ i) :
    ResultAnalyzer.validateResults domain results p₁ =
      ResultAnalyzer.validateResults domain results p₂ := by
  have hp : p₁ = p₂ := funext h
  rw [hp]

/-- Claim C8, witness for the amended theorem at a concrete bundle and two
syntactically different but pointwise-equal probes. -/
theorem validateResults_deterministic_witness :
    ResultAnalyzer.validateResults "example.com" bundleC8 probeMiss =
      ResultAnalyzer.validateResults "example.com" bundleC8 (fun _ => []) :=
  validateResults_deterministic "example.com" bundleC8 probeMiss (fun _ => []) (fun _ => rfl)

/-- Claim C1, counterexample: with correctly configured k2/k3 records plus a
`duplicateDomain` key, `checkCommonErrors` reports an error and that error
is carried in the composed DKIM error list, yet the composed `dkim.isValid`
stays `true` - the orchestrator never flips the verdict on common errors. -/
theorem validateResults_common_errors_cex :
    (DkimValidator.checkCommonErrors "example.com" (consolidate bundleC1)).errors.map
        (fun e => e.type) = [.duplicateDomain] ∧
    (ResultAnalyzer.validateResults "example.com" bundleC1 probeMiss).dkim.errors.map
        (fun e => e.type) = [.duplicateDomain] ∧
    (ResultAnalyzer.validateResults "example.com" bundleC1 probeMiss).dkim.isValid = true := by
  decide

/-- Claim C1 (amended): whenever `checkCommonErrors` reports at least one
error, the composed DKIM result has exactly the `checkCommonErrors` error
list prepended to the primary `DkimValidator.validate` error list, and its
`isValid` equals the primary validator's verdict unchanged - the common
errors do not flip it. -/
theorem validateResults_common_errors (domain : String) (results : Bundle)
    (probe : Nat → List String)
    (h : (DkimValidator.checkCommonErrors domain (consolidate results)).errors ≠ []) :
    (ResultAnalyzer.validateResults domain results probe).dkim.errors =
        (DkimValidator.checkCommonErrors domain (consolidate results)).errors ++
        (DkimValidator.validate domain (consolidate results)).errors ∧
    (ResultAnalyzer.validateResults domain results probe).dkim.isValid =
        (DkimValidator.validate domain (consolidate results)).isValid := by
  have hE : (DkimValidator.checkCommonErrors domain (consolidate results)).errors.isEmpty
      = false := by
    simpa [List.isEmpty_iff] using h
  show (ResultAnalyzer.dkimSection domain results probe).errors = _ ∧
       (ResultAnalyzer.dkimSection domain results probe).isValid = _
  unfold ResultAnalyzer.dkimSection
  simp [hE]

/-- Claim C1, witness for the amended theorem at the concrete bundle with a
duplicate-domain key alongside correct k2/k3 records. -/
theorem validateResults_common_errors_witness :
    (ResultAnalyzer.validateResults "example.com" bundleC1 probeMiss).dkim.errors =
        (DkimValidator.checkCommonErrors "example.com" (consolidate bundleC1)).errors ++
        (DkimValidator.validate "example.com" (consolidate bundleC1)).errors ∧
    (ResultAnalyzer.validateResults "example.com" bundleC1 probeMiss).dkim.isValid =
        (DkimValidator.validate "example.com" (consolidate bundleC1)).isValid :=
  validateResults_common_errors "example.com" bundleC1 probeMiss (by decide)

/-- Claim C10 (confirmed): the DMARC validator always returns at most one
error, and returns a valid verdict exactly when its error list is empty. -/
theorem dmarc_validate_invariant (records : List String) :
    (DmarcValidator.validate records).errors.length ≤ 1 ∧
    ((DmarcValidator.validate records).isValid = true ↔
      (DmarcValidator.validate records).errors = []) := by
  unfold DmarcValidator.validate
  rcases records.filter (fun r => strContains r "v=DMARC1") with _ | ⟨d, _ | ⟨e, t⟩⟩
  · simp
  · by_cases hp : pPolicyMatch d = true <;> simp [hp]
  · simp

/-- Claim C3, counterexample: the single record `"v=DMARC1; sp=none"` has no
`p=` tag at all (its only tags are `v` and `sp`), so the claim requires an
`invalidSyntax` error, but the code's substring regex finds `p=none` inside
`sp=none` and returns a fully valid verdict. -/
theorem dmarc_policy_tag_cex :
    DmarcValidator.validate ["v=DMARC1; sp=none"] = { isValid := true, errors := [] } ∧
    hasPolicyTagSpec "v=DMARC1; sp=none" = false := by decide

/-- Claim C3 (amended): zero `v=DMARC1` matches give a `missingRecord`
error, more than one gives `multipleRecords`, and with exactly one match
the verdict is valid precisely when the record contains, case-insensitively,
the substring `p=` immediately followed by `reject`, `quarantine` or `none`
(a substring search, not a tag parse), with `invalidSyntax` otherwise. -/
theorem dmarc_validate_cases (records : List String) :
    ((records.filter (fun r => strContains r "v=DMARC1")).length = 0 →
      DmarcValidator.validate records =
        { isValid := false,
          errors := [{ type := .missingRecord, message := "No DMARC record found" }] }) ∧
    (1 < (records.filter (fun r => strContains r "v=DMARC1")).length →
      DmarcValidator.validate records =
        { isValid := false,
          errors := [{ type := .multipleRecords, message := "Multiple DMARC records found" }] }) ∧
    (∀ d, records.filter (fun r => strContains r "v=DMARC1") = [d] →
      ((DmarcValidator.validate records).isValid = true ↔ pPolicyMatch d = true) ∧
      (pPolicyMatch d = false →
        DmarcValidator.validate records =
          { isValid := false,
            errors := [{ type := .invalidSyntax,
                         message := "DMARC record missing required policy (p=) tag" }] })) := by
  unfold DmarcValidator.validate
  rcases hf : records.filter (fun r => strContains r "v=DMARC1") with _ | ⟨d, _ | ⟨e, t⟩⟩
  · simp
  · refine ⟨by simp, by simp, ?_⟩
    intro d' hd'
    have : d' = d := by
      have := hd'.symm.trans rfl
      injection hd' with h1 h2
      exact h1.symm
    subst this
    by_cases hp : pPolicyMatch d' = true <;> simp [hp]
  · refine ⟨by simp, fun _ => rfl, by simp⟩

/-- Claim C3, witness for the amended theorem: the single record
`"v=DMARC1; p=invalid"` fails the substring policy search and yields the
`invalidSyntax` error. -/
theorem dmarc_validate_cases_witness :
    DmarcValidator.validate ["v=DMARC1; p=invalid"] =
      { isValid := false,
        errors := [{ type := .invalidSyntax,
                     message := "DMARC record missing required policy (p=) tag" }] } := by
  have h := (dmarc_validate_cases ["v=DMARC1; p=invalid"]).2.2 "v=DMARC1; p=invalid" (by decide)
  exact h.2 (by decide)

theorem any_beq_eq_decide_mem (l : List String) (c : String) :
    (l.any (fun r => r == c)) = decide (c ∈ l) := by
  by_cases h : c ∈ l
  · rw [decide_eq_true h, List.any_eq_true]
    exact ⟨c, h, by simp⟩
  · rw [decide_eq_false h, List.any_eq_false]
    intro x hx
    simp only [beq_iff_eq]
    intro hxc
    exact h (hxc ▸ hx)

/-- Claim C2 (confirmed): when both `k2._domainkey.<domain>` and
`k3._domainkey.<domain>` have non-empty value lists, the primary DKIM
validator returns a valid verdict exactly when the k2 list contains the
exact string `dkim2.mcsv.net` and the k3 list contains the exact string
`dkim3.mcsv.net`, and in the valid case the error list is empty. -/
theorem dkim_validate_k2k3_iff (domain : String) (records : RecordMap)
    (h2 : lookupD records ("k2._domainkey." ++ domain) ≠ [])
    (h3 : lookupD records ("k3._domainkey." ++ domain) ≠ []) :
    ((DkimValidator.validate domain records).isValid = true ↔
      ("dkim2.mcsv.net" ∈ lookupD records ("k2._domainkey." ++ domain) ∧
       "dkim3.mcsv.net" ∈ lookupD records ("k3._domainkey." ++ domain))) ∧
    ((DkimValidator.validate domain records).isValid = true →
      (DkimValidator.validate domain records).errors = []) := by
  have e2 : (lookupD records ("k2._domainkey." ++ domain)).isEmpty = false := by
    simpa [List.isEmpty_iff] using h2
  have e3 : (lookupD records ("k3._domainkey." ++ domain)).isEmpty = false := by
    simpa [List.isEmpty_iff] using h3
  unfold DkimValidator.validate
  simp only [e2, e3, Bool.not_false, Bool.and_self, if_true, any_beq_eq_decide_mem]
  by_cases m2 : "dkim2.mcsv.net" ∈ lookupD records ("k2._domainkey." ++ domain) <;>
    by_cases m3 : "dkim3.mcsv.net" ∈ lookupD records ("k3._domainkey." ++ domain) <;>
    simp [m2, m3] <;> (try split) <;> simp_all

/-- Claim C2, witness at the concrete record map with both targets set. -/
theorem dkim_validate_k2k3_iff_witness :
    (DkimValidator.validate "example.com" recordsC2).isValid = true ∧
    (DkimValidator.validate "example.com" recordsC2).errors = [] := by
  have h := dkim_validate_k2k3_iff "example.com" recordsC2 (by decide) (by decide)
  have hv : (DkimValidator.validate "example.com" recordsC2).isValid = true :=
    h.1.mpr ⟨by decide, by decide⟩
  exact ⟨hv, h.2 hv⟩

/-- Claim C4, counterexample: in `bundleC4` one provider returns a value for
the record and another returns the empty list; among providers that
returned non-empty lists there is only one distinct value, yet
`checkConsistency` reports `consistent = false`, because an empty answer is
serialized as `[]` and counts as a distinct disagreeing value. -/
theorem checkConsistency_empty_breaks_cex :
    (ResultAnalyzer.checkConsistency bundleC4).consistent = false ∧
    specInconsistent bundleC4 = false := by decide

/-- Claim C4 (amended): `consistent` is false exactly when some
non-metadata record name has at least one provider with a non-empty
(canonicalized) value list and at the same time at least two providers
whose value lists differ - where a provider lacking the key contributes the
empty list, so an empty answer next to a non-empty one does break
consistency. -/
theorem checkConsistency_consistent_iff (r : Bundle) :
    (ResultAnalyzer.checkConsistency r).consistent = false ↔
      ∃ name ∈ recordNames r, metaName name = false ∧
        (∃ vs ∈ providerVals r name, vs ≠ []) ∧
        ∃ vs₁ ∈ providerVals r name, ∃ vs₂ ∈ providerVals r name, vs₁ ≠ vs₂ := by
  unfold ResultAnalyzer.checkConsistency
  simp [List.any_eq_true, List.mem_filter, hasValidB, multiB, one_lt_dedup_length_iff,
    List.isEmpty_iff]

theorem insertSorted_ne_nil (x : String) (l : List String) : insertSorted x l ≠ [] := by
  cases l with
  | nil => simp [insertSorted]
  | cons y ys =>
    unfold insertSorted
    split <;> simp

theorem sortStr_ne_nil {l : List String} (h : l ≠ []) : sortStr l ≠ [] := by
  cases l with
  | nil => exact absurd rfl h
  | cons a t => exact insertSorted_ne_nil a (sortStr t)

theorem mem_foldl_append_iff {β : Type} (g : β → List String) (x : String) (l : List β) :
    ∀ acc, (x ∈ l.foldl (fun acc e => acc ++ g e) acc ↔ x ∈ acc ∨ ∃ e ∈ l, x ∈ g e) := by
  induction l with
  | nil => intro acc; simp
  | cons e t ih =>
    intro acc
    rw [List.foldl_cons, ih]
    simp only [List.mem_append, List.mem_cons]
    constructor
    · rintro ((h | h) | h)
      · exact Or.inl h
      · exact Or.inr ⟨e, Or.inl rfl, h⟩
      · rcases h with ⟨e', he', hx⟩
        exact Or.inr ⟨e', Or.inr he', hx⟩
    · rintro (h | ⟨e', he', hx⟩)
      · exact Or.inl (Or.inl h)
      · rcases he' with he' | he'
        · exact Or.inl (Or.inr (he' ▸ hx))
        · exact Or.inr ⟨e', he', hx⟩

theorem mem_recordNames (r : Bundle) (name : String) :
    name ∈ recordNames r ↔ ∃ e ∈ r, name ∈ e.2.map (fun kv => kv.1) := by
  unfold recordNames
  rw [mem_dedupKeepFirst]
  have h := mem_foldl_append_iff
    (fun (e : String × ProviderRecords) => e.2.map (fun kv => kv.1)) name r []
  simp only [List.not_mem_nil, false_or] at h
  exact h

/-- Claim C5 (confirmed): whenever some non-metadata record name gets a
non-empty array answer from one provider and an explicit empty array from
another provider, `checkConsistency` reports successful results and flags
the bundle as inconsistent. -/
theorem checkConsistency_mixed_empty (r : Bundle) (name p q : String)
    (mp mq : ProviderRecords) (vs : List String)
    (hp : (p, mp) ∈ r) (hq : (q, mq) ∈ r) (hmeta : metaName name = false)
    (h1 : lookupJ mp name = some (JVal.arr vs)) (hvs : vs ≠ [])
    (h2 : lookupJ mq name = some (JVal.arr [])) :
    ResultAnalyzer.checkConsistency r =
      { consistent := false, hasSuccessfulResults := true } := by
  have hv1 : canonVals name vs ∈ providerVals r name := by
    unfold providerVals
    exact List.mem_filterMap.mpr ⟨(p, mp), hp, by rw [h1]⟩
  have hv2 : ([] : List String) ∈ providerVals r name := by
    unfold providerVals
    refine List.mem_filterMap.mpr ⟨(q, mq), hq, ?_⟩
    rw [h2]
    simp [canonVals]
  have hcne : canonVals name vs ≠ [] := by
    unfold canonVals
    split
    · exact sortStr_ne_nil hvs
    · exact hvs
  have hname : name ∈ recordNames r := by
    rw [mem_recordNames]
    refine ⟨(p, mp), hp, ?_⟩
    unfold lookupJ at h1
    rcases hfind : mp.find? (fun e => e.1 == name) with _ | e
    · rw [hfind] at h1; cases h1
    · have he := List.mem_of_find?_eq_some hfind
      have hpred := List.find?_some hfind
      have he1 : e.1 = name := by simpa using hpred
      exact List.mem_map.mpr ⟨e, he, he1⟩
  have hvalid : hasValidB r name = true := by
    unfold hasValidB
    rw [List.any_eq_true]
    exact ⟨canonVals name vs, hv1, by simpa [List.isEmpty_iff] using hcne⟩
  have hmulti : multiB r name = true := by
    unfold multiB
    rw [decide_eq_true_eq]
    exact (one_lt_dedup_length_iff _).mpr ⟨canonVals name vs, hv1, [], hv2, hcne⟩
  have hmem : name ∈ (recordNames r).filter (fun n => !metaName n) :=
    List.mem_filter.mpr ⟨hname, by simp [hmeta]⟩
  have hany1 : ((recordNames r).filter (fun n => !metaName n)).any
      (fun n => hasValidB r n && multiB r n) = true := by
    rw [List.any_eq_true]
    exact ⟨name, hmem, by simp [hvalid, hmulti]⟩
  have hany2 : ((recordNames r).filter (fun n => !metaName n)).any
      (fun n => hasValidB r n) = true := by
    rw [List.any_eq_true]
    exact ⟨name, hmem, hvalid⟩
  unfold ResultAnalyzer.checkConsistency
  simp [hany1, hany2]

/-- Claim C5, witness at a concrete two-provider bundle where `google`
answers the DMARC record and `openDNS` returns an empty list. -/
theorem checkConsistency_mixed_empty_witness :
    ResultAnalyzer.checkConsistency bundleC5 =
      { consistent := false, hasSuccessfulResults := true } :=
  checkConsistency_mixed_empty bundleC5 "_dmarc.example.org" "google" "openDNS"
    [("_dmarc.example.org", JVal.arr ["v=DMARC1; p=reject"])]
    [("_dmarc.example.org", JVal.arr [])]
    ["v=DMARC1; p=reject"]
    (by decide) (by decide) (by decide) (by decide) (by decide) (by decide)

theorem append_head_beq_false {p t : String} {c₁ c₂ : Char} {l₁ l₂ : List Char}
    (hp : p.data = c₁ :: l₁) (ht : t.data = c₂ :: l₂) (hc : c₁ ≠ c₂) (d : String) :
    ((p ++ d) == t) = false := by
  refine beq_eq_false_iff_ne.mpr ?_
  intro h
  have h2 : (p ++ d).data = t.data := by rw [h]
  rw [String.data_append, hp, ht, List.cons_append] at h2
  exact hc (List.cons.inj h2).1

theorem metaName_k2key (d : String) : metaName ("k2._domainkey." ++ d) = false := by
  unfold metaName
  rw [append_head_beq_false
        (show ("k2._domainkey." : String).data = 'k' :: ("2._domainkey." : String).data from rfl)
        (show ("authoritativeServer" : String).data =
          'a' :: ("uthoritativeServer" : String).data from rfl) (by decide) d,
      append_head_beq_false
        (show ("k2._domainkey." : String).data = 'k' :: ("2._domainkey." : String).data from rfl)
        (show ("authoritativeServers" : String).data =
          'a' :: ("uthoritativeServers" : String).data from rfl) (by decide) d]
  rfl

theorem metaName_k3key (d : String) : metaName ("k3._domainkey." ++ d) = false := by
  unfold metaName
  rw [append_head_beq_false
        (show ("k3._domainkey." : String).data = 'k' :: ("3._domainkey." : String).data from rfl)
        (show ("authoritativeServer" : String).data =
          'a' :: ("uthoritativeServer" : String).data from rfl) (by decide) d,
      append_head_beq_false
        (show ("k3._domainkey." : String).data = 'k' :: ("3._domainkey." : String).data from rfl)
        (show ("authoritativeServers" : String).data =
          'a' :: ("uthoritativeServers" : String).data from rfl) (by decide) d]
  rfl

theorem k2key_beq_k3key (d : String) :
    (("k2._domainkey." ++ d) == ("k3._domainkey." ++ d)) = false := by
  refine beq_eq_false_iff_ne.mpr ?_
  intro h
  have h2 : ("k2._domainkey." ++ d).data = ("k3._domainkey." ++ d).data := by rw [h]
  rw [String.data_append, String.data_append,
      show ("k2._domainkey." : String).data =
        'k' :: '2' :: ("._domainkey." : String).data from rfl,
      show ("k3._domainkey." : String).data =
        'k' :: '3' :: ("._domainkey." : String).data from rfl] at h2
  simp only [List.cons_append, List.cons.injEq] at h2
  exact absurd h2.2.1 (by decide)

theorem consolidate_swapBundle (d : String) : consolidate (swapBundle d) = swapMap d := by
  unfold consolidate swapBundle swapMap
  simp [addVals, metaName_k2key d, metaName_k3key d, k2key_beq_k3key d, dedupKeepFirst]

theorem validate_swapMap (d : String) :
    DkimValidator.validate d (swapMap d) =
      { isValid := false,
        errors := [{ type := .switchedRecords,
                     message := "DKIM records appear to be switched - k2 points to dkim3 and k3 points to dkim2" }] } := by
  have l2 : lookupD (swapMap d) ("k2._domainkey." ++ d) = ["dkim3.mcsv.net"] := by
    unfold swapMap lookupD
    simp [List.find?]
  have l3 : lookupD (swapMap d) ("k3._domainkey." ++ d) = ["dkim2.mcsv.net"] := by
    unfold swapMap lookupD
    simp [List.find?, k2key_beq_k3key d]
  unfold DkimValidator.validate
  rw [l2, l3]
  simp

theorem hasNoRecordsB_swapBundle (d : String) :
    hasNoRecordsB d (swapBundle d) = false := by
  unfold hasNoRecordsB swapBundle
  simp [strContains_self]

/-- Claim C6, counterexample: for the domain `www.example.com` the swapped
k2/k3 configuration (and no other `_domainkey` keys) produces three DKIM
errors - two `wrongSubdomain` diagnostics prepended by the common-error
pass in front of the `switchedRecords` error - not exactly one. -/
theorem dkim_swapped_cex :
    consolidate bundleC6cex = swapMap "www.example.com" ∧
    (ResultAnalyzer.validateResults "www.example.com" bundleC6cex probeMiss).dkim.errors.map
        (fun e => e.type) = [.wrongSubdomain, .wrongSubdomain, .switchedRecords] := by
  decide

/-- Claim C6 (amended): for every domain on which the common-error pass
stays silent for the swapped map (in particular any ordinary domain that
does not start with `www.` and contains no `_domainkey` or duplicated-domain
substring in its keys), the composed DKIM validation of the swapped k2/k3
configuration yields `isValid = false` with exactly one error, of type
`switchedRecords`. -/
theorem dkim_swapped_single_error (domain : String) (probe : Nat → List String)
    (h : (DkimValidator.checkCommonErrors domain (swapMap domain)).errors = []) :
    (ResultAnalyzer.validateResults domain (swapBundle domain) probe).dkim =
      { isValid := false,
        errors := [{ type := .switchedRecords,
                     message := "DKIM records appear to be switched - k2 points to dkim3 and k3 points to dkim2" }] } := by
  show ResultAnalyzer.dkimSection domain (swapBundle domain) probe = _
  unfold ResultAnalyzer.dkimSection
  rw [consolidate_swapBundle]
  simp [h, hasNoRecordsB_swapBundle, validate_swapMap]

/-- Claim C6, witness for the amended theorem at the ordinary domain
`example.com`. -/
theorem dkim_swapped_single_error_witness :
    (ResultAnalyzer.validateResults "example.com" (swapBundle "example.com") probeMiss).dkim =
      { isValid := false,
        errors := [{ type := .switchedRecords,
                     message := "DKIM records appear to be switched - k2 points to dkim3 and k3 points to dkim2" }] } :=
  dkim_swapped_single_error "example.com" probeMiss (by decide)

theorem runCalls_entry (dflt : Nat) (ovr : List (String × Nat)) (ip : String) (R : Nat) :
    ∀ (ts : List Nat) (count : Nat), (∀ t ∈ ts, t ≤ R) →
    RequestThrottler.runCalls
        { defaultLimit := dflt, overrides := ovr,
          ipCounts := [(ip, { count := count, resetTime := R })] } ip ts =
      (List.range ts.length).map
        (fun i => decide (count + i < RequestThrottler.getLimitForIp
          (RequestThrottler.mk dflt ovr) ip)) := by
  intro ts
  induction ts with
  | nil => intro count h; rfl
  | cons now rest ih =>
    intro count h
    have hnow : ¬(R < now) := Nat.not_lt.mpr (h now (List.mem_cons_self _ _))
    have hrest : ∀ t ∈ rest, t ≤ R := fun t ht => h t (List.mem_cons_of_mem _ ht)
    have hstep : RequestThrottler.checkAllowed
        { defaultLimit := dflt, overrides := ovr,
          ipCounts := [(ip, { count := count, resetTime := R })] } ip now =
        (if count < RequestThrottler.getLimitForIp (RequestThrottler.mk dflt ovr) ip then
          (true, { defaultLimit := dflt, overrides := ovr,
                   ipCounts := [(ip, { count := count + 1, resetTime := R })] })
         else
          (false, { defaultLimit := dflt, overrides := ovr,
                    ipCounts := [(ip, { count := count, resetTime := R })] })) := by
      unfold RequestThrottler.checkAllowed
      simp [List.find?, hnow, setEntry]
      rfl
    simp only [RequestThrottler.runCalls]
    rw [hstep]
    rw [List.length_cons, List.range_succ_eq_map, List.map_cons, List.map_map]
    by_cases hcl : count < RequestThrottler.getLimitForIp (RequestThrottler.mk dflt ovr) ip
    · rw [if_pos hcl]
      refine congrArg₂ List.cons ?_ ?_
      · simp [hcl]
      · rw [ih (count + 1) hrest]
        refine List.map_congr_left ?_
        intro i _
        simp only [Function.comp]
        exact decide_eq_decide.mpr (by omega)
    · rw [if_neg hcl]
      refine congrArg₂ List.cons ?_ ?_
      · simp [hcl]
      · rw [ih count hrest]
        refine List.map_congr_left ?_
        intro i _
        simp only [Function.comp]
        exact decide_eq_decide.mpr (by omega)

/-- Claim C9 (amended): for a freshly constructed throttler and any sequence
of calls for one IP whose times all lie within one hour of the first call,
the i-th call (0-based) is allowed exactly when `i` is below the limit
computed by `getLimitForIp` - which is the exact-IP override when present
and non-zero, else the `a.b.c.*` wildcard override when present and
non-zero, else the default limit; a present override of value 0 is ignored
because `if (this.overrides[ip])` treats 0 as falsy. -/
theorem throttler_window_outputs (dflt : Nat) (ovr : List (String × Nat)) (ip : String)
    (t0 : Nat) (ts : List Nat) (h : ∀ t ∈ ts, t ≤ t0 + 3600000) :
    RequestThrottler.runCalls (RequestThrottler.mk dflt ovr) ip (t0 :: ts) =
      (List.range (ts.length + 1)).map
        (fun i => decide (i < RequestThrottler.getLimitForIp
          (RequestThrottler.mk dflt ovr) ip)) := by
  have hstep : RequestThrottler.checkAllowed (RequestThrottler.mk dflt ovr) ip t0 =
      (if 0 < RequestThrottler.getLimitForIp (RequestThrottler.mk dflt ovr) ip then
        (true, { defaultLimit := dflt, overrides := ovr,
                 ipCounts := [(ip, { count := 1, resetTime := t0 + 3600000 })] })
       else
        (false, { defaultLimit := dflt, overrides := ovr,
                  ipCounts := [(ip, { count := 0, resetTime := t0 + 3600000 })] })) := by
    unfold RequestThrottler.checkAllowed RequestThrottler.mk
    simp [List.find?, setEntry]
  simp only [RequestThrottler.runCalls]
  rw [hstep]
  rw [List.range_succ_eq_map, List.map_cons, List.map_map]
  by_cases h0 : 0 < RequestThrottler.getLimitForIp (RequestThrottler.mk dflt ovr) ip
  · rw [if_pos h0]
    refine congrArg₂ List.cons ?_ ?_
    · simp [h0]
    · rw [runCalls_entry dflt ovr ip (t0 + 3600000) ts 1 h]
      refine List.map_congr_left ?_
      intro i _
      simp only [Function.comp]
      exact decide_eq_decide.mpr (by omega)
  · rw [if_neg h0]
    refine congrArg₂ List.cons ?_ ?_
    · simp [h0]
    · rw [runCalls_entry dflt ovr ip (t0 + 3600000) ts 0 h]
      refine List.map_congr_left ?_
      intro i _
      simp only [Function.comp]
      exact decide_eq_decide.mpr (by omega)

/-- Claim C9, counterexample: the override table carries the exact IP with
value 0, so the claimed limit for that IP is 0 and every call should be
denied, yet the first call is allowed - the code treats a 0 override as
falsy and silently falls back to the default limit. -/
theorem throttler_zero_override_cex :
    specLimitForIp 2 [("1.2.3.4", 0)] "1.2.3.4" = 0 ∧
    RequestThrottler.runCalls (RequestThrottler.mk 2 [("1.2.3.4", 0)]) "1.2.3.4" [5] =
      [true] := by decide

/-- Claim C9, witness for the amended theorem: default limit 2, an explicit
override of 3 for the called IP, four calls inside one window: exactly the
first three succeed. -/
theorem throttler_window_outputs_witness :
    RequestThrottler.runCalls (RequestThrottler.mk 2 [("9.8.7.6", 3)]) "9.8.7.6"
      [0, 1, 2, 3] = [true, true, true, false] := by
  rw [throttler_window_outputs 2 [("9.8.7.6", 3)] "9.8.7.6" 0 [1, 2, 3] (by decide)]
  decide
